import Mathlib

/-
  Verification of the tcmalloc size-class tables (src/tcmalloc/size_classes.cc).

  The source file is pure data: eight literal tables of SizeClassInfo rows,
  one per (ABI alignment mode, TCMALLOC_PAGE_SHIFT) pair, each guarded by
  static assertions on kMaxSize and kCount.  We embed each table as a Lean
  list, package it with its configuration constants, and prove the invariants
  the specification states about the tables.
-/

namespace TcmallocSizeClasses

/-- One row of a size-class table: size of the size class in bytes, number of
pages per span, preferred number of objects for transfers between caches, and
maximum cpu cache capacity. -/
structure SizeClassInfo where
  size : Nat
  pages : Nat
  num_to_move : Nat
  capacity : Nat
deriving DecidableEq, Repr

/-- The literal table kSizeClassesList for the branch with default new alignment at most 8 and TCMALLOC_PAGE_SHIFT == 13 (kCount = 82, kMaxSize = 262144).  Columns: bytes, pages, batch, cap. -/
def kSizeClassesList_le8_ps13 : List SizeClassInfo := [
  SizeClassInfo.mk 0 0 0 0,
  SizeClassInfo.mk 8 1 32 2024,
  SizeClassInfo.mk 16 1 32 2024,
  SizeClassInfo.mk 32 1 32 2027,
  SizeClassInfo.mk 64 1 32 2024,
  SizeClassInfo.mk 72 1 32 1275,
  SizeClassInfo.mk 80 1 32 2024,
  SizeClassInfo.mk 88 1 32 1031,
  SizeClassInfo.mk 96 1 32 1206,
  SizeClassInfo.mk 104 1 32 489,
  SizeClassInfo.mk 112 1 32 804,
  SizeClassInfo.mk 120 1 32 505,
  SizeClassInfo.mk 128 1 32 957,
  SizeClassInfo.mk 136 1 32 355,
  SizeClassInfo.mk 144 1 32 646,
  SizeClassInfo.mk 160 1 32 721,
  SizeClassInfo.mk 176 1 32 378,
  SizeClassInfo.mk 192 1 32 491,
  SizeClassInfo.mk 208 1 32 326,
  SizeClassInfo.mk 224 1 32 284,
  SizeClassInfo.mk 240 1 32 266,
  SizeClassInfo.mk 256 1 32 613,
  SizeClassInfo.mk 264 1 32 155,
  SizeClassInfo.mk 280 1 32 292,
  SizeClassInfo.mk 312 1 32 347,
  SizeClassInfo.mk 336 1 32 360,
  SizeClassInfo.mk 352 1 32 188,
  SizeClassInfo.mk 384 1 32 244,
  SizeClassInfo.mk 408 1 32 213,
  SizeClassInfo.mk 424 1 32 162,
  SizeClassInfo.mk 448 1 32 232,
  SizeClassInfo.mk 480 1 32 194,
  SizeClassInfo.mk 512 1 32 409,
  SizeClassInfo.mk 576 1 32 252,
  SizeClassInfo.mk 640 1 32 214,
  SizeClassInfo.mk 704 1 32 188,
  SizeClassInfo.mk 768 1 32 185,
  SizeClassInfo.mk 896 1 32 203,
  SizeClassInfo.mk 1024 1 32 377,
  SizeClassInfo.mk 1152 2 32 192,
  SizeClassInfo.mk 1280 2 32 170,
  SizeClassInfo.mk 1408 2 32 160,
  SizeClassInfo.mk 1536 2 32 166,
  SizeClassInfo.mk 1792 2 32 163,
  SizeClassInfo.mk 2048 2 32 202,
  SizeClassInfo.mk 2304 2 28 158,
  SizeClassInfo.mk 2688 2 24 149,
  SizeClassInfo.mk 2816 3 23 134,
  SizeClassInfo.mk 3200 2 20 141,
  SizeClassInfo.mk 3456 3 18 133,
  SizeClassInfo.mk 3584 4 18 131,
  SizeClassInfo.mk 4096 1 16 350,
  SizeClassInfo.mk 4736 3 13 140,
  SizeClassInfo.mk 5376 2 12 132,
  SizeClassInfo.mk 6144 3 10 140,
  SizeClassInfo.mk 7168 7 9 134,
  SizeClassInfo.mk 8192 1 8 207,
  SizeClassInfo.mk 9472 5 6 134,
  SizeClassInfo.mk 10240 4 6 129,
  SizeClassInfo.mk 12288 3 5 134,
  SizeClassInfo.mk 13568 5 4 129,
  SizeClassInfo.mk 14336 7 4 128,
  SizeClassInfo.mk 16384 2 4 141,
  SizeClassInfo.mk 20480 5 3 132,
  SizeClassInfo.mk 24576 3 2 131,
  SizeClassInfo.mk 28672 7 2 130,
  SizeClassInfo.mk 32768 4 2 143,
  SizeClassInfo.mk 40960 5 2 130,
  SizeClassInfo.mk 49152 6 2 128,
  SizeClassInfo.mk 57344 7 2 128,
  SizeClassInfo.mk 65536 8 2 133,
  SizeClassInfo.mk 73728 9 2 129,
  SizeClassInfo.mk 81920 10 2 128,
  SizeClassInfo.mk 98304 12 2 128,
  SizeClassInfo.mk 114688 14 2 128,
  SizeClassInfo.mk 131072 16 2 128,
  SizeClassInfo.mk 139264 17 2 128,
  SizeClassInfo.mk 155648 19 2 127,
  SizeClassInfo.mk 172032 21 2 127,
  SizeClassInfo.mk 204800 25 2 127,
  SizeClassInfo.mk 229376 28 2 127,
  SizeClassInfo.mk 262144 32 2 128
]

/-- The literal table kSizeClassesList for the branch with default new alignment at most 8 and TCMALLOC_PAGE_SHIFT == 15 (kCount = 74, kMaxSize = 262144).  Columns: bytes, pages, batch, cap. -/
def kSizeClassesList_le8_ps15 : List SizeClassInfo := [
  SizeClassInfo.mk 0 0 0 0,
  SizeClassInfo.mk 8 1 32 1824,
  SizeClassInfo.mk 16 1 32 1824,
  SizeClassInfo.mk 32 1 32 1824,
  SizeClassInfo.mk 64 1 32 1824,
  SizeClassInfo.mk 72 1 32 1241,
  SizeClassInfo.mk 80 1 32 1824,
  SizeClassInfo.mk 88 1 32 1267,
  SizeClassInfo.mk 96 1 32 1590,
  SizeClassInfo.mk 104 1 32 718,
  SizeClassInfo.mk 112 1 32 844,
  SizeClassInfo.mk 120 1 32 678,
  SizeClassInfo.mk 128 1 32 1447,
  SizeClassInfo.mk 136 1 32 428,
  SizeClassInfo.mk 144 1 32 599,
  SizeClassInfo.mk 160 1 32 744,
  SizeClassInfo.mk 176 1 32 461,
  SizeClassInfo.mk 192 1 32 603,
  SizeClassInfo.mk 208 1 32 297,
  SizeClassInfo.mk 240 1 32 686,
  SizeClassInfo.mk 256 1 32 811,
  SizeClassInfo.mk 280 1 32 385,
  SizeClassInfo.mk 304 1 32 289,
  SizeClassInfo.mk 320 1 32 203,
  SizeClassInfo.mk 352 1 32 398,
  SizeClassInfo.mk 400 1 32 298,
  SizeClassInfo.mk 448 1 32 255,
  SizeClassInfo.mk 512 1 32 480,
  SizeClassInfo.mk 576 1 32 238,
  SizeClassInfo.mk 640 1 32 284,
  SizeClassInfo.mk 704 1 32 223,
  SizeClassInfo.mk 768 1 32 198,
  SizeClassInfo.mk 896 1 32 257,
  SizeClassInfo.mk 1024 1 32 364,
  SizeClassInfo.mk 1152 1 32 197,
  SizeClassInfo.mk 1280 1 32 175,
  SizeClassInfo.mk 1408 1 32 175,
  SizeClassInfo.mk 1536 1 32 163,
  SizeClassInfo.mk 1792 1 32 158,
  SizeClassInfo.mk 1920 1 32 126,
  SizeClassInfo.mk 2048 1 32 170,
  SizeClassInfo.mk 2176 1 30 162,
  SizeClassInfo.mk 2304 1 28 130,
  SizeClassInfo.mk 2688 1 24 153,
  SizeClassInfo.mk 3200 1 20 142,
  SizeClassInfo.mk 3584 1 18 127,
  SizeClassInfo.mk 4096 1 16 321,
  SizeClassInfo.mk 4608 1 14 135,
  SizeClassInfo.mk 5376 1 12 128,
  SizeClassInfo.mk 6528 1 10 143,
  SizeClassInfo.mk 8192 1 8 165,
  SizeClassInfo.mk 9344 2 7 127,
  SizeClassInfo.mk 10880 1 6 120,
  SizeClassInfo.mk 13056 2 5 122,
  SizeClassInfo.mk 13952 3 4 116,
  SizeClassInfo.mk 16384 1 4 146,
  SizeClassInfo.mk 19072 3 3 125,
  SizeClassInfo.mk 21760 2 3 117,
  SizeClassInfo.mk 24576 3 2 117,
  SizeClassInfo.mk 28672 7 2 121,
  SizeClassInfo.mk 32768 1 2 135,
  SizeClassInfo.mk 38144 5 2 117,
  SizeClassInfo.mk 40960 4 2 114,
  SizeClassInfo.mk 49152 3 2 115,
  SizeClassInfo.mk 57344 7 2 117,
  SizeClassInfo.mk 65536 2 2 123,
  SizeClassInfo.mk 81920 5 2 118,
  SizeClassInfo.mk 98304 3 2 115,
  SizeClassInfo.mk 114688 7 2 115,
  SizeClassInfo.mk 131072 4 2 142,
  SizeClassInfo.mk 163840 5 2 115,
  SizeClassInfo.mk 196608 6 2 115,
  SizeClassInfo.mk 229376 7 2 113,
  SizeClassInfo.mk 262144 8 2 117
]

/-- The literal table kSizeClassesList for the branch with default new alignment at most 8 and TCMALLOC_PAGE_SHIFT == 18 (kCount = 85, kMaxSize = 262144).  Columns: bytes, pages, batch, cap. -/
def kSizeClassesList_le8_ps18 : List SizeClassInfo := [
  SizeClassInfo.mk 0 0 0 0,
  SizeClassInfo.mk 8 1 32 1912,
  SizeClassInfo.mk 16 1 32 1912,
  SizeClassInfo.mk 32 1 32 1912,
  SizeClassInfo.mk 64 1 32 1918,
  SizeClassInfo.mk 72 1 32 1912,
  SizeClassInfo.mk 80 1 32 1691,
  SizeClassInfo.mk 88 1 32 632,
  SizeClassInfo.mk 96 1 32 898,
  SizeClassInfo.mk 104 1 32 510,
  SizeClassInfo.mk 112 1 32 758,
  SizeClassInfo.mk 128 1 32 1197,
  SizeClassInfo.mk 144 1 32 992,
  SizeClassInfo.mk 160 1 32 841,
  SizeClassInfo.mk 176 1 32 348,
  SizeClassInfo.mk 192 1 32 415,
  SizeClassInfo.mk 208 1 32 299,
  SizeClassInfo.mk 232 1 32 623,
  SizeClassInfo.mk 256 1 32 737,
  SizeClassInfo.mk 280 1 32 365,
  SizeClassInfo.mk 312 1 32 538,
  SizeClassInfo.mk 336 1 32 448,
  SizeClassInfo.mk 376 1 32 220,
  SizeClassInfo.mk 416 1 32 295,
  SizeClassInfo.mk 472 1 32 275,
  SizeClassInfo.mk 512 1 32 339,
  SizeClassInfo.mk 576 1 32 266,
  SizeClassInfo.mk 704 1 32 320,
  SizeClassInfo.mk 768 1 32 181,
  SizeClassInfo.mk 896 1 32 212,
  SizeClassInfo.mk 1024 1 32 340,
  SizeClassInfo.mk 1152 1 32 194,
  SizeClassInfo.mk 1280 1 32 170,
  SizeClassInfo.mk 1408 1 32 148,
  SizeClassInfo.mk 1664 1 32 258,
  SizeClassInfo.mk 1920 1 32 212,
  SizeClassInfo.mk 2048 1 32 183,
  SizeClassInfo.mk 2176 1 30 312,
  SizeClassInfo.mk 2304 1 28 153,
  SizeClassInfo.mk 2560 1 25 146,
  SizeClassInfo.mk 2816 1 23 129,
  SizeClassInfo.mk 3072 1 21 130,
  SizeClassInfo.mk 3328 1 19 147,
  SizeClassInfo.mk 3584 1 18 126,
  SizeClassInfo.mk 3840 1 17 126,
  SizeClassInfo.mk 4096 1 16 273,
  SizeClassInfo.mk 4224 1 15 132,
  SizeClassInfo.mk 4736 1 13 136,
  SizeClassInfo.mk 5248 1 12 147,
  SizeClassInfo.mk 5760 1 11 127,
  SizeClassInfo.mk 6528 1 10 134,
  SizeClassInfo.mk 7168 1 9 123,
  SizeClassInfo.mk 8192 1 8 167,
  SizeClassInfo.mk 9344 1 7 130,
  SizeClassInfo.mk 10880 1 6 126,
  SizeClassInfo.mk 11904 1 5 129,
  SizeClassInfo.mk 13056 1 5 126,
  SizeClassInfo.mk 13696 1 4 120,
  SizeClassInfo.mk 14464 1 4 121,
  SizeClassInfo.mk 15360 1 4 121,
  SizeClassInfo.mk 16384 1 4 139,
  SizeClassInfo.mk 17408 1 3 123,
  SizeClassInfo.mk 18688 1 3 125,
  SizeClassInfo.mk 20096 1 3 120,
  SizeClassInfo.mk 21760 1 3 121,
  SizeClassInfo.mk 23808 1 2 125,
  SizeClassInfo.mk 26112 1 2 122,
  SizeClassInfo.mk 29056 1 2 120,
  SizeClassInfo.mk 32768 1 2 170,
  SizeClassInfo.mk 37376 1 2 122,
  SizeClassInfo.mk 43648 1 2 120,
  SizeClassInfo.mk 45568 2 2 119,
  SizeClassInfo.mk 52352 1 2 120,
  SizeClassInfo.mk 56064 2 2 119,
  SizeClassInfo.mk 65536 1 2 122,
  SizeClassInfo.mk 74880 2 2 120,
  SizeClassInfo.mk 87296 1 2 120,
  SizeClassInfo.mk 104832 2 2 120,
  SizeClassInfo.mk 112256 3 2 119,
  SizeClassInfo.mk 131072 1 2 120,
  SizeClassInfo.mk 149760 3 2 119,
  SizeClassInfo.mk 174720 2 2 119,
  SizeClassInfo.mk 196608 3 2 119,
  SizeClassInfo.mk 209664 4 2 119,
  SizeClassInfo.mk 262144 1 2 122
]

/-- The literal table kSizeClassesList for the branch with default new alignment at most 8 and TCMALLOC_PAGE_SHIFT == 12 (kCount = 42, kMaxSize = 8192).  Columns: bytes, pages, batch, cap. -/
def kSizeClassesList_le8_ps12 : List SizeClassInfo := [
  SizeClassInfo.mk 0 0 0 0,
  SizeClassInfo.mk 8 1 32 2622,
  SizeClassInfo.mk 16 1 32 2622,
  SizeClassInfo.mk 32 1 32 2622,
  SizeClassInfo.mk 64 1 32 2622,
  SizeClassInfo.mk 72 1 32 927,
  SizeClassInfo.mk 80 1 32 2622,
  SizeClassInfo.mk 96 1 32 2160,
  SizeClassInfo.mk 104 1 32 670,
  SizeClassInfo.mk 112 1 32 1197,
  SizeClassInfo.mk 128 1 32 1607,
  SizeClassInfo.mk 144 1 32 1292,
  SizeClassInfo.mk 160 1 32 1167,
  SizeClassInfo.mk 176 1 32 563,
  SizeClassInfo.mk 192 1 32 610,
  SizeClassInfo.mk 208 1 32 394,
  SizeClassInfo.mk 224 1 32 551,
  SizeClassInfo.mk 240 1 32 319,
  SizeClassInfo.mk 256 1 32 598,
  SizeClassInfo.mk 272 1 32 260,
  SizeClassInfo.mk 288 1 32 301,
  SizeClassInfo.mk 336 1 32 579,
  SizeClassInfo.mk 408 1 32 250,
  SizeClassInfo.mk 448 1 32 225,
  SizeClassInfo.mk 512 1 32 739,
  SizeClassInfo.mk 576 2 32 338,
  SizeClassInfo.mk 640 2 32 188,
  SizeClassInfo.mk 768 2 32 334,
  SizeClassInfo.mk 896 2 32 287,
  SizeClassInfo.mk 1024 2 32 964,
  SizeClassInfo.mk 1152 3 32 210,
  SizeClassInfo.mk 1280 3 32 164,
  SizeClassInfo.mk 1536 3 32 204,
  SizeClassInfo.mk 2048 4 32 530,
  SizeClassInfo.mk 2304 4 28 191,
  SizeClassInfo.mk 2688 4 24 181,
  SizeClassInfo.mk 3200 4 20 166,
  SizeClassInfo.mk 4096 4 16 624,
  SizeClassInfo.mk 4736 5 13 213,
  SizeClassInfo.mk 6144 3 10 168,
  SizeClassInfo.mk 7168 7 9 169,
  SizeClassInfo.mk 8192 4 8 236
]

/-- The literal table kSizeClassesList for the branch with default new alignment above 8 (aligned-new) and TCMALLOC_PAGE_SHIFT == 13 (kCount = 85, kMaxSize = 262144).  Columns: bytes, pages, batch, cap. -/
def kSizeClassesList_gt8_ps13 : List SizeClassInfo := [
  SizeClassInfo.mk 0 0 0 0,
  SizeClassInfo.mk 8 1 32 2369,
  SizeClassInfo.mk 16 1 32 2369,
  SizeClassInfo.mk 32 1 32 2369,
  SizeClassInfo.mk 64 1 32 2369,
  SizeClassInfo.mk 80 1 32 2369,
  SizeClassInfo.mk 96 1 32 1596,
  SizeClassInfo.mk 112 1 32 911,
  SizeClassInfo.mk 128 1 32 1035,
  SizeClassInfo.mk 144 1 32 699,
  SizeClassInfo.mk 160 1 32 586,
  SizeClassInfo.mk 176 1 32 333,
  SizeClassInfo.mk 192 1 32 418,
  SizeClassInfo.mk 208 1 32 296,
  SizeClassInfo.mk 224 1 32 264,
  SizeClassInfo.mk 240 1 32 251,
  SizeClassInfo.mk 256 1 32 507,
  SizeClassInfo.mk 272 1 32 231,
  SizeClassInfo.mk 288 1 32 264,
  SizeClassInfo.mk 304 1 32 205,
  SizeClassInfo.mk 320 1 32 250,
  SizeClassInfo.mk 336 1 32 269,
  SizeClassInfo.mk 352 1 32 193,
  SizeClassInfo.mk 368 1 32 173,
  SizeClassInfo.mk 384 1 32 209,
  SizeClassInfo.mk 400 1 32 190,
  SizeClassInfo.mk 416 1 32 187,
  SizeClassInfo.mk 448 1 32 236,
  SizeClassInfo.mk 480 1 32 198,
  SizeClassInfo.mk 512 1 32 356,
  SizeClassInfo.mk 576 1 32 241,
  SizeClassInfo.mk 640 1 32 213,
  SizeClassInfo.mk 704 1 32 193,
  SizeClassInfo.mk 768 1 32 191,
  SizeClassInfo.mk 896 1 32 205,
  SizeClassInfo.mk 1024 1 32 332,
  SizeClassInfo.mk 1152 2 32 197,
  SizeClassInfo.mk 1280 2 32 180,
  SizeClassInfo.mk 1408 2 32 172,
  SizeClassInfo.mk 1536 2 32 178,
  SizeClassInfo.mk 1792 2 32 175,
  SizeClassInfo.mk 2048 2 32 204,
  SizeClassInfo.mk 2304 2 28 171,
  SizeClassInfo.mk 2688 2 24 165,
  SizeClassInfo.mk 2816 3 23 154,
  SizeClassInfo.mk 3200 2 20 160,
  SizeClassInfo.mk 3456 3 18 153,
  SizeClassInfo.mk 3584 4 18 152,
  SizeClassInfo.mk 4096 1 16 312,
  SizeClassInfo.mk 4736 3 13 158,
  SizeClassInfo.mk 5376 2 12 153,
  SizeClassInfo.mk 6144 3 10 158,
  SizeClassInfo.mk 6528 4 10 150,
  SizeClassInfo.mk 7168 7 9 152,
  SizeClassInfo.mk 8192 1 8 207,
  SizeClassInfo.mk 9472 5 6 154,
  SizeClassInfo.mk 10240 4 6 150,
  SizeClassInfo.mk 12288 3 5 154,
  SizeClassInfo.mk 13568 5 4 150,
  SizeClassInfo.mk 14336 7 4 149,
  SizeClassInfo.mk 16384 2 4 160,
  SizeClassInfo.mk 20480 5 3 153,
  SizeClassInfo.mk 24576 3 2 152,
  SizeClassInfo.mk 28672 7 2 152,
  SizeClassInfo.mk 32768 4 2 161,
  SizeClassInfo.mk 40960 5 2 150,
  SizeClassInfo.mk 49152 6 2 149,
  SizeClassInfo.mk 57344 7 2 149,
  SizeClassInfo.mk 65536 8 2 153,
  SizeClassInfo.mk 73728 9 2 150,
  SizeClassInfo.mk 81920 10 2 149,
  SizeClassInfo.mk 90112 11 2 148,
  SizeClassInfo.mk 98304 12 2 149,
  SizeClassInfo.mk 106496 13 2 148,
  SizeClassInfo.mk 114688 14 2 148,
  SizeClassInfo.mk 131072 16 2 149,
  SizeClassInfo.mk 139264 17 2 149,
  SizeClassInfo.mk 147456 18 2 148,
  SizeClassInfo.mk 155648 19 2 148,
  SizeClassInfo.mk 172032 21 2 148,
  SizeClassInfo.mk 188416 23 2 148,
  SizeClassInfo.mk 204800 25 2 148,
  SizeClassInfo.mk 221184 27 2 148,
  SizeClassInfo.mk 237568 29 2 146,
  SizeClassInfo.mk 262144 32 2 148
]

/-- The literal table kSizeClassesList for the branch with default new alignment above 8 (aligned-new) and TCMALLOC_PAGE_SHIFT == 15 (kCount = 77, kMaxSize = 262144).  Columns: bytes, pages, batch, cap. -/
def kSizeClassesList_gt8_ps15 : List SizeClassInfo := [
  SizeClassInfo.mk 0 0 0 0,
  SizeClassInfo.mk 8 1 32 2249,
  SizeClassInfo.mk 16 1 32 2249,
  SizeClassInfo.mk 32 1 32 2249,
  SizeClassInfo.mk 64 1 32 2249,
  SizeClassInfo.mk 80 1 32 2249,
  SizeClassInfo.mk 96 1 32 2100,
  SizeClassInfo.mk 112 1 32 1138,
  SizeClassInfo.mk 128 1 32 1563,
  SizeClassInfo.mk 144 1 32 739,
  SizeClassInfo.mk 160 1 32 615,
  SizeClassInfo.mk 176 1 32 402,
  SizeClassInfo.mk 192 1 32 509,
  SizeClassInfo.mk 208 1 32 279,
  SizeClassInfo.mk 224 1 32 359,
  SizeClassInfo.mk 240 1 32 355,
  SizeClassInfo.mk 256 1 32 666,
  SizeClassInfo.mk 288 1 32 382,
  SizeClassInfo.mk 304 1 32 234,
  SizeClassInfo.mk 320 1 32 208,
  SizeClassInfo.mk 352 1 32 355,
  SizeClassInfo.mk 384 1 32 244,
  SizeClassInfo.mk 400 1 32 176,
  SizeClassInfo.mk 448 1 32 246,
  SizeClassInfo.mk 480 1 32 254,
  SizeClassInfo.mk 512 1 32 304,
  SizeClassInfo.mk 576 1 32 234,
  SizeClassInfo.mk 640 1 32 269,
  SizeClassInfo.mk 704 1 32 222,
  SizeClassInfo.mk 768 1 32 204,
  SizeClassInfo.mk 832 1 32 208,
  SizeClassInfo.mk 896 1 32 182,
  SizeClassInfo.mk 1024 1 32 328,
  SizeClassInfo.mk 1152 1 32 203,
  SizeClassInfo.mk 1280 1 32 186,
  SizeClassInfo.mk 1408 1 32 186,
  SizeClassInfo.mk 1536 1 32 178,
  SizeClassInfo.mk 1792 1 32 174,
  SizeClassInfo.mk 1920 1 32 149,
  SizeClassInfo.mk 2048 1 32 183,
  SizeClassInfo.mk 2176 1 30 177,
  SizeClassInfo.mk 2304 1 28 153,
  SizeClassInfo.mk 2432 1 26 150,
  SizeClassInfo.mk 2688 1 24 160,
  SizeClassInfo.mk 2944 1 22 149,
  SizeClassInfo.mk 3200 1 20 153,
  SizeClassInfo.mk 3584 1 18 150,
  SizeClassInfo.mk 4096 1 16 297,
  SizeClassInfo.mk 4608 1 14 157,
  SizeClassInfo.mk 5376 1 12 152,
  SizeClassInfo.mk 6528 1 10 163,
  SizeClassInfo.mk 7168 2 9 143,
  SizeClassInfo.mk 8192 1 8 177,
  SizeClassInfo.mk 9344 2 7 150,
  SizeClassInfo.mk 10880 1 6 145,
  SizeClassInfo.mk 13056 2 5 146,
  SizeClassInfo.mk 13952 3 4 142,
  SizeClassInfo.mk 16384 1 4 165,
  SizeClassInfo.mk 19072 3 3 148,
  SizeClassInfo.mk 21760 2 3 143,
  SizeClassInfo.mk 24576 3 2 143,
  SizeClassInfo.mk 26112 4 2 142,
  SizeClassInfo.mk 28672 7 2 145,
  SizeClassInfo.mk 32768 1 2 157,
  SizeClassInfo.mk 38144 5 2 143,
  SizeClassInfo.mk 40960 4 2 141,
  SizeClassInfo.mk 49152 3 2 142,
  SizeClassInfo.mk 57344 7 2 143,
  SizeClassInfo.mk 65536 2 2 147,
  SizeClassInfo.mk 81920 5 2 144,
  SizeClassInfo.mk 98304 3 2 142,
  SizeClassInfo.mk 114688 7 2 141,
  SizeClassInfo.mk 131072 4 2 161,
  SizeClassInfo.mk 163840 5 2 141,
  SizeClassInfo.mk 196608 6 2 142,
  SizeClassInfo.mk 229376 7 2 136,
  SizeClassInfo.mk 262144 8 2 143
]

/-- The literal table kSizeClassesList for the branch with default new alignment above 8 (aligned-new) and TCMALLOC_PAGE_SHIFT == 18 (kCount = 88, kMaxSize = 262144).  Columns: bytes, pages, batch, cap. -/
def kSizeClassesList_gt8_ps18 : List SizeClassInfo := [
  SizeClassInfo.mk 0 0 0 0,
  SizeClassInfo.mk 8 1 32 2368,
  SizeClassInfo.mk 16 1 32 2368,
  SizeClassInfo.mk 32 1 32 2368,
  SizeClassInfo.mk 64 1 32 2371,
  SizeClassInfo.mk 80 1 32 2368,
  SizeClassInfo.mk 96 1 32 1006,
  SizeClassInfo.mk 112 1 32 834,
  SizeClassInfo.mk 128 1 32 871,
  SizeClassInfo.mk 144 1 32 733,
  SizeClassInfo.mk 160 1 32 633,
  SizeClassInfo.mk 176 1 32 302,
  SizeClassInfo.mk 192 1 32 347,
  SizeClassInfo.mk 208 1 32 268,
  SizeClassInfo.mk 224 1 32 466,
  SizeClassInfo.mk 256 1 32 584,
  SizeClassInfo.mk 288 1 32 446,
  SizeClassInfo.mk 320 1 32 342,
  SizeClassInfo.mk 336 1 32 321,
  SizeClassInfo.mk 368 1 32 199,
  SizeClassInfo.mk 400 1 32 257,
  SizeClassInfo.mk 448 1 32 259,
  SizeClassInfo.mk 480 1 32 188,
  SizeClassInfo.mk 512 1 32 275,
  SizeClassInfo.mk 576 1 32 246,
  SizeClassInfo.mk 640 1 32 235,
  SizeClassInfo.mk 704 1 32 197,
  SizeClassInfo.mk 768 1 32 190,
  SizeClassInfo.mk 896 1 32 210,
  SizeClassInfo.mk 1024 1 32 296,
  SizeClassInfo.mk 1152 1 32 198,
  SizeClassInfo.mk 1280 1 32 182,
  SizeClassInfo.mk 1408 1 32 168,
  SizeClassInfo.mk 1536 1 32 168,
  SizeClassInfo.mk 1664 1 32 221,
  SizeClassInfo.mk 1920 1 32 209,
  SizeClassInfo.mk 2048 1 32 191,
  SizeClassInfo.mk 2176 1 30 278,
  SizeClassInfo.mk 2304 1 28 171,
  SizeClassInfo.mk 2560 1 25 165,
  SizeClassInfo.mk 2816 1 23 155,
  SizeClassInfo.mk 3072 1 21 155,
  SizeClassInfo.mk 3328 1 19 167,
  SizeClassInfo.mk 3584 1 18 153,
  SizeClassInfo.mk 3840 1 17 153,
  SizeClassInfo.mk 4096 1 16 251,
  SizeClassInfo.mk 4224 1 15 156,
  SizeClassInfo.mk 4736 1 13 160,
  SizeClassInfo.mk 5120 1 12 158,
  SizeClassInfo.mk 5632 1 11 160,
  SizeClassInfo.mk 6144 1 10 153,
  SizeClassInfo.mk 6528 1 10 154,
  SizeClassInfo.mk 7168 1 9 150,
  SizeClassInfo.mk 8192 1 8 180,
  SizeClassInfo.mk 8704 1 7 150,
  SizeClassInfo.mk 9344 1 7 153,
  SizeClassInfo.mk 10368 1 6 151,
  SizeClassInfo.mk 11392 1 5 154,
  SizeClassInfo.mk 12416 1 5 153,
  SizeClassInfo.mk 13056 1 5 150,
  SizeClassInfo.mk 13696 1 4 149,
  SizeClassInfo.mk 14464 1 4 149,
  SizeClassInfo.mk 15360 1 4 149,
  SizeClassInfo.mk 16384 1 4 161,
  SizeClassInfo.mk 17408 1 3 150,
  SizeClassInfo.mk 18688 1 3 151,
  SizeClassInfo.mk 20096 1 3 149,
  SizeClassInfo.mk 21760 1 3 149,
  SizeClassInfo.mk 23808 1 2 151,
  SizeClassInfo.mk 26112 1 2 150,
  SizeClassInfo.mk 29056 1 2 149,
  SizeClassInfo.mk 32768 1 2 182,
  SizeClassInfo.mk 37376 1 2 150,
  SizeClassInfo.mk 43648 1 2 149,
  SizeClassInfo.mk 45568 2 2 148,
  SizeClassInfo.mk 52352 1 2 149,
  SizeClassInfo.mk 56064 2 2 148,
  SizeClassInfo.mk 65536 1 2 150,
  SizeClassInfo.mk 74880 2 2 148,
  SizeClassInfo.mk 87296 1 2 148,
  SizeClassInfo.mk 104832 2 2 148,
  SizeClassInfo.mk 112256 3 2 148,
  SizeClassInfo.mk 131072 1 2 148,
  SizeClassInfo.mk 149760 3 2 148,
  SizeClassInfo.mk 174720 2 2 148,
  SizeClassInfo.mk 196608 3 2 148,
  SizeClassInfo.mk 209664 4 2 148,
  SizeClassInfo.mk 262144 1 2 150
]

/-- The literal table kSizeClassesList for the branch with default new alignment above 8 (aligned-new) and TCMALLOC_PAGE_SHIFT == 12 (kCount = 45, kMaxSize = 8192).  Columns: bytes, pages, batch, cap. -/
def kSizeClassesList_gt8_ps12 : List SizeClassInfo := [
  SizeClassInfo.mk 0 0 0 0,
  SizeClassInfo.mk 8 1 32 2906,
  SizeClassInfo.mk 16 1 32 2906,
  SizeClassInfo.mk 32 1 32 2910,
  SizeClassInfo.mk 64 1 32 2906,
  SizeClassInfo.mk 80 1 32 2906,
  SizeClassInfo.mk 96 1 32 1880,
  SizeClassInfo.mk 112 1 32 1490,
  SizeClassInfo.mk 128 1 32 1411,
  SizeClassInfo.mk 144 1 32 1144,
  SizeClassInfo.mk 160 1 32 1037,
  SizeClassInfo.mk 176 1 32 525,
  SizeClassInfo.mk 192 1 32 563,
  SizeClassInfo.mk 208 1 32 380,
  SizeClassInfo.mk 224 1 32 512,
  SizeClassInfo.mk 240 1 32 316,
  SizeClassInfo.mk 256 1 32 553,
  SizeClassInfo.mk 272 1 32 267,
  SizeClassInfo.mk 288 1 32 301,
  SizeClassInfo.mk 304 1 32 261,
  SizeClassInfo.mk 336 1 32 457,
  SizeClassInfo.mk 368 1 32 226,
  SizeClassInfo.mk 400 1 32 207,
  SizeClassInfo.mk 448 1 32 241,
  SizeClassInfo.mk 512 1 32 673,
  SizeClassInfo.mk 576 2 32 333,
  SizeClassInfo.mk 640 2 32 206,
  SizeClassInfo.mk 768 2 32 329,
  SizeClassInfo.mk 896 2 32 290,
  SizeClassInfo.mk 1024 2 32 864,
  SizeClassInfo.mk 1152 3 32 224,
  SizeClassInfo.mk 1280 3 32 184,
  SizeClassInfo.mk 1536 3 32 219,
  SizeClassInfo.mk 1792 4 32 193,
  SizeClassInfo.mk 2048 4 32 483,
  SizeClassInfo.mk 2304 4 28 207,
  SizeClassInfo.mk 2688 4 24 199,
  SizeClassInfo.mk 3200 4 20 187,
  SizeClassInfo.mk 3584 7 18 184,
  SizeClassInfo.mk 4096 4 16 570,
  SizeClassInfo.mk 4736 5 13 226,
  SizeClassInfo.mk 5376 4 12 182,
  SizeClassInfo.mk 6144 3 10 186,
  SizeClassInfo.mk 7168 7 9 190,
  SizeClassInfo.mk 8192 4 8 246
]
/-- Modelled from the spec: the minimum alignment of the two ABI modes.  The
constant kAlignment lives in tcmalloc/common.h, which is not part of this
repository snapshot; the spec describes the two modes as the "≤8-byte" ABI
versus the ">8-byte/aligned-new ABI", so the minimum alignments are 8 and 16
bytes respectively. -/
def kAlignmentLe8 : Nat := 8

/-- Modelled from the spec: minimum alignment of the >8-byte/aligned-new ABI
mode (see kAlignmentLe8). -/
def kAlignmentGt8 : Nat := 16

/-- Modelled from the spec: the "global batch ceiling" bounding transfer_batch.
The constant (kMaxObjectsToMove in tcmalloc/common.h) is not part of this
repository snapshot; every batch column of every table is at most 32, which is
the value the ceiling takes. -/
def kMaxObjectsToMove : Nat := 32

/-- Modelled from the spec: the configuration-wide growth ceiling, in percent.
The generator configuration holding this ceiling is not part of this repository
snapshot and the spec gives no numeric value; the tables begin with doubling
steps (8, 16, 32, 64), so the ceiling is at least 100%, and we model it as
exactly 100% (size at most doubles from one class to the next). -/
def growthCeilingPct : Nat := 100

/-- One configuration of the ConfigurationSet: a (page-shift, ABI-alignment)
pair together with its static constants kMaxSize and kCount and its literal
table. -/
structure SizeClassConfig where
  pageShift : Nat
  alignment : Nat
  kMaxSize : Nat
  kCount : Nat
  classes : List SizeClassInfo
deriving DecidableEq, Repr

/-- The page size of a configuration: 2 ^ TCMALLOC_PAGE_SHIFT. -/
def pageSize (cfg : SizeClassConfig) : Nat := 2 ^ cfg.pageShift

/-- Configuration for the ≤8-byte ABI, TCMALLOC_PAGE_SHIFT == 13. -/
def cfg_le8_ps13 : SizeClassConfig := SizeClassConfig.mk 13 kAlignmentLe8 262144 82 kSizeClassesList_le8_ps13

/-- Configuration for the ≤8-byte ABI, TCMALLOC_PAGE_SHIFT == 15. -/
def cfg_le8_ps15 : SizeClassConfig := SizeClassConfig.mk 15 kAlignmentLe8 262144 74 kSizeClassesList_le8_ps15

/-- Configuration for the ≤8-byte ABI, TCMALLOC_PAGE_SHIFT == 18. -/
def cfg_le8_ps18 : SizeClassConfig := SizeClassConfig.mk 18 kAlignmentLe8 262144 85 kSizeClassesList_le8_ps18

/-- Configuration for the ≤8-byte ABI, TCMALLOC_PAGE_SHIFT == 12. -/
def cfg_le8_ps12 : SizeClassConfig := SizeClassConfig.mk 12 kAlignmentLe8 8192 42 kSizeClassesList_le8_ps12

/-- Configuration for the >8-byte/aligned-new ABI, TCMALLOC_PAGE_SHIFT == 13. -/
def cfg_gt8_ps13 : SizeClassConfig := SizeClassConfig.mk 13 kAlignmentGt8 262144 85 kSizeClassesList_gt8_ps13

/-- Configuration for the >8-byte/aligned-new ABI, TCMALLOC_PAGE_SHIFT == 15. -/
def cfg_gt8_ps15 : SizeClassConfig := SizeClassConfig.mk 15 kAlignmentGt8 262144 77 kSizeClassesList_gt8_ps15

/-- Configuration for the >8-byte/aligned-new ABI, TCMALLOC_PAGE_SHIFT == 18. -/
def cfg_gt8_ps18 : SizeClassConfig := SizeClassConfig.mk 18 kAlignmentGt8 262144 88 kSizeClassesList_gt8_ps18

/-- Configuration for the >8-byte/aligned-new ABI, TCMALLOC_PAGE_SHIFT == 12. -/
def cfg_gt8_ps12 : SizeClassConfig := SizeClassConfig.mk 12 kAlignmentGt8 8192 45 kSizeClassesList_gt8_ps12

/-- All eight supported configurations of the source file. -/
def allConfigs : List SizeClassConfig :=
  [cfg_le8_ps13, cfg_le8_ps15, cfg_le8_ps18, cfg_le8_ps12,
   cfg_gt8_ps13, cfg_gt8_ps15, cfg_gt8_ps18, cfg_gt8_ps12]

/-- Derived metric: objects per span, floor(pages_per_span * page_size / size_bytes). -/
def objectsPerSpan (ps : Nat) (c : SizeClassInfo) : Nat := c.pages * ps / c.size

/-- The size_bytes of class i of a configuration (0 when out of range). -/
def sizeAt (cfg : SizeClassConfig) (i : Nat) : Nat :=
  ((cfg.classes[i]?).map SizeClassInfo.size).getD 0

/-! ### Claim theorems -/

/-- Claim C1, counterexample: in the ≤8-byte-ABI page-shift-13 table, class 22
is the row with 264 bytes, 1 page per span and transfer batch 32, while its
objects_per_span is floor(1 * 8192 / 264) = 31, so the stored transfer batch
exceeds objects_per_span and the claimed bound fails. -/
theorem C1_counterexample :
    cfg_le8_ps13.classes[22]? = some (SizeClassInfo.mk 264 1 32 155) ∧
    objectsPerSpan (pageSize cfg_le8_ps13) (SizeClassInfo.mk 264 1 32 155) = 31 ∧
    ¬ (SizeClassInfo.mk 264 1 32 155).num_to_move ≤
        objectsPerSpan (pageSize cfg_le8_ps13) (SizeClassInfo.mk 264 1 32 155) := by
  decide

/-- Claim C1 (amended): for every configuration's table and every non-sentinel
class, the stored transfer_batch is bounded above by the global batch ceiling
(32); the bound by objects_per_span does not hold in general. -/
theorem C1_batch_le_ceiling :
    ∀ cfg ∈ allConfigs, ∀ c ∈ cfg.classes.drop 1, c.num_to_move ≤ kMaxObjectsToMove := by
  decide

theorem C1_batch_le_ceiling_witness :
    (SizeClassInfo.mk 8 1 32 2024).num_to_move ≤ kMaxObjectsToMove :=
  C1_batch_le_ceiling cfg_le8_ps13 (by decide) (SizeClassInfo.mk 8 1 32 2024) (by decide)

/-- Claim C2: in the configuration with page size 8192 (page shift 13),
alignment ≤ 8 and maximum block size 262144, the table has exactly 82 entries
including the sentinel, class 1 has size 8 bytes and 1 page per span, and the
last class has size 262144 bytes and 32 pages per span. -/
theorem C2_concrete_scenario :
    pageSize cfg_le8_ps13 = 8192 ∧
    cfg_le8_ps13.alignment = 8 ∧
    cfg_le8_ps13.kMaxSize = 262144 ∧
    cfg_le8_ps13.classes.length = 82 ∧
    cfg_le8_ps13.kCount = 82 ∧
    cfg_le8_ps13.classes[1]?.map (fun c => (c.size, c.pages)) = some (8, 1) ∧
    cfg_le8_ps13.classes.getLast?.map (fun c => (c.size, c.pages)) = some (262144, 32) := by
  decide

/-- The list of adjacent pairs of a list: element i paired with element i+1. -/
def adjacentPairs {α : Type} (l : List α) : List (α × α) := l.zip l.tail

/-- Claim C3: for every configuration's table, size_bytes is strictly
increasing over the classes with index ≥ 1 (the sentinel class 0 is dropped
before the adjacent comparison). -/
theorem C3_sizes_strictly_increasing :
    ∀ cfg ∈ allConfigs, ∀ p ∈ adjacentPairs (cfg.classes.drop 1),
      p.1.size < p.2.size := by
  decide

theorem C3_sizes_strictly_increasing_witness :
    (SizeClassInfo.mk 8 1 32 2622, SizeClassInfo.mk 16 1 32 2622).1.size <
      (SizeClassInfo.mk 8 1 32 2622, SizeClassInfo.mk 16 1 32 2622).2.size :=
  C3_sizes_strictly_increasing cfg_le8_ps12 (by decide)
    (SizeClassInfo.mk 8 1 32 2622, SizeClassInfo.mk 16 1 32 2622) (by decide)

/-- Claim C4: for every configuration, the size_bytes of the last class equals
that configuration's maximum block size kMaxSize exactly, and kMaxSize is
262144 for page shifts 13, 15 and 18 and 8192 for page shift 12, so the
configurations that share a page shift agree on the maximum block size. -/
theorem C4_last_size_is_max :
    ∀ cfg ∈ allConfigs,
      cfg.classes.getLast?.map SizeClassInfo.size = some cfg.kMaxSize ∧
      cfg.kMaxSize = (if cfg.pageShift = 12 then 8192 else 262144) := by
  decide

theorem C4_last_size_is_max_witness :
    cfg_gt8_ps18.classes.getLast?.map SizeClassInfo.size = some cfg_gt8_ps18.kMaxSize ∧
    cfg_gt8_ps18.kMaxSize = (if cfg_gt8_ps18.pageShift = 12 then 8192 else 262144) :=
  C4_last_size_is_max cfg_gt8_ps18 (by decide)

/-- Claim C5: in every configuration's table, class 0 is the sentinel row with
all four fields zero, and the full table length, sentinel included, equals the
configuration's kCount (so the sentinel counts toward the class count; the
monotonicity and derived-metric theorems quantify over the dropped tail only). -/
theorem C5_sentinel :
    ∀ cfg ∈ allConfigs,
      cfg.classes.head? = some (SizeClassInfo.mk 0 0 0 0) ∧
      cfg.classes.length = cfg.kCount := by
  decide

theorem C5_sentinel_witness :
    cfg_gt8_ps12.classes.head? = some (SizeClassInfo.mk 0 0 0 0) ∧
    cfg_gt8_ps12.classes.length = cfg_gt8_ps12.kCount :=
  C5_sentinel cfg_gt8_ps12 (by decide)

/-- Claim C6: for every configuration's table and every class with index ≥ 1,
a span holds at least one object: pages_per_span * page_size ≥ size_bytes, and
the derived objects_per_span is at least 1. -/
theorem C6_span_fits_object :
    ∀ cfg ∈ allConfigs, ∀ c ∈ cfg.classes.drop 1,
      c.size ≤ c.pages * pageSize cfg ∧ 1 ≤ objectsPerSpan (pageSize cfg) c := by
  decide

theorem C6_span_fits_object_witness :
    (SizeClassInfo.mk 262144 1 2 122).size ≤
        (SizeClassInfo.mk 262144 1 2 122).pages * pageSize cfg_le8_ps18 ∧
    1 ≤ objectsPerSpan (pageSize cfg_le8_ps18) (SizeClassInfo.mk 262144 1 2 122) :=
  C6_span_fits_object cfg_le8_ps18 (by decide) (SizeClassInfo.mk 262144 1 2 122) (by decide)

/-- Claim C7, counterexample: in the >8-byte/aligned-new ABI page-shift-13
configuration the minimum alignment is 16, but class 1 has size 8 bytes, which
is not a multiple of 16, so the claim as stated fails. -/
theorem C7_counterexample :
    cfg_gt8_ps13.alignment = 16 ∧
    cfg_gt8_ps13.classes[1]?.map SizeClassInfo.size = some 8 ∧
    ¬ 8 % cfg_gt8_ps13.alignment = 0 := by
  decide

/-- Claim C7 (amended): in every configuration's table, every class with index
≥ 1 has size a multiple of 8, and every class with index ≥ 2 has size a
multiple of the configuration's minimum alignment; in the >8-byte-ABI
configurations the single exception is class 1, the 8-byte class. -/
theorem C7_alignment :
    ∀ cfg ∈ allConfigs,
      (∀ c ∈ cfg.classes.drop 1, c.size % kAlignmentLe8 = 0) ∧
      (∀ c ∈ cfg.classes.drop 2, c.size % cfg.alignment = 0) := by
  decide

theorem C7_alignment_witness :
    (SizeClassInfo.mk 16 1 32 2369).size % cfg_gt8_ps13.alignment = 0 :=
  (C7_alignment cfg_gt8_ps13 (by decide)).2 (SizeClassInfo.mk 16 1 32 2369) (by decide)

/-- Claim C8: for every configuration's table and every pair of adjacent
classes with index ≥ 1, the relative size increase recomputed from the stored
sizes, (size i - size (i-1)) / size (i-1), is at most the configuration-wide
growth ceiling of 100% (the ceiling is attained, at the doubling steps
8 → 16 → 32 → 64). -/
theorem C8_growth_bounded :
    ∀ cfg ∈ allConfigs, ∀ p ∈ adjacentPairs (cfg.classes.drop 1),
      (p.2.size - p.1.size) * 100 ≤ growthCeilingPct * p.1.size := by
  decide

theorem C8_growth_bounded_witness :
    ((SizeClassInfo.mk 229376 7 2 136, SizeClassInfo.mk 262144 8 2 143).2.size -
        (SizeClassInfo.mk 229376 7 2 136, SizeClassInfo.mk 262144 8 2 143).1.size) * 100 ≤
      growthCeilingPct * (SizeClassInfo.mk 229376 7 2 136, SizeClassInfo.mk 262144 8 2 143).1.size :=
  C8_growth_bounded cfg_gt8_ps15 (by decide)
    (SizeClassInfo.mk 229376 7 2 136, SizeClassInfo.mk 262144 8 2 143) (by decide)

/-- Class i of the configuration can serve a request of s bytes: i is a
non-sentinel index of the table and its size_bytes is at least s. -/
def FitsAt (cfg : SizeClassConfig) (s i : Nat) : Prop :=
  1 ≤ i ∧ i < cfg.classes.length ∧ s ≤ sizeAt cfg i

instance (cfg : SizeClassConfig) (s i : Nat) : Decidable (FitsAt cfg s i) :=
  inferInstanceAs (Decidable (1 ≤ i ∧ i < cfg.classes.length ∧ s ≤ sizeAt cfg i))

/-- Class i is the smallest class of the configuration that can serve a
request of s bytes. -/
def IsSmallestFit (cfg : SizeClassConfig) (s i : Nat) : Prop :=
  FitsAt cfg s i ∧ ∀ j, FitsAt cfg s j → i ≤ j

/-- Every configuration's table has at least the sentinel and one real class,
and the size of its last class (at index length - 1) is kMaxSize. -/
lemma allConfigs_two_le_length_and_last :
    ∀ cfg ∈ allConfigs,
      2 ≤ cfg.classes.length ∧ sizeAt cfg (cfg.classes.length - 1) = cfg.kMaxSize := by
  decide

/-- Claim C9: for every configuration and every requested size s with
1 ≤ s ≤ kMaxSize, there is a unique smallest class index i ≥ 1 whose
size_bytes is at least s, so rounding a request up to a class is a
well-defined total function on that range. -/
theorem C9_round_up_well_defined :
    ∀ cfg ∈ allConfigs, ∀ s : Nat, 1 ≤ s → s ≤ cfg.kMaxSize →
      ∃! i, IsSmallestFit cfg s i := by
  intro cfg hcfg s _ hs2
  obtain ⟨hlen, hlast⟩ := allConfigs_two_le_length_and_last cfg hcfg
  have hex : ∃ i, FitsAt cfg s i := by
    refine ⟨cfg.classes.length - 1, ?_, ?_, ?_⟩
    · omega
    · omega
    · rw [hlast]; exact hs2
  refine ⟨Nat.find hex, ⟨Nat.find_spec hex, fun j hj => Nat.find_min' hex hj⟩, ?_⟩
  intro y hy
  exact Nat.le_antisymm (hy.2 (Nat.find hex) (Nat.find_spec hex)) (Nat.find_min' hex hy.1)

theorem C9_round_up_well_defined_witness :
    ∃! i, IsSmallestFit cfg_le8_ps13 100 i :=
  C9_round_up_well_defined cfg_le8_ps13 (by decide) 100 (by decide) (by decide)

/-- Claim C10: in every configuration's table, transfer_batch is monotonically
non-increasing over the classes with index ≥ 1: each class's batch is at most
the preceding class's batch. -/
theorem C10_batch_nonincreasing :
    ∀ cfg ∈ allConfigs, ∀ p ∈ adjacentPairs (cfg.classes.drop 1),
      p.2.num_to_move ≤ p.1.num_to_move := by
  decide

theorem C10_batch_nonincreasing_witness :
    (SizeClassInfo.mk 8704 1 7 150, SizeClassInfo.mk 9344 1 7 153).2.num_to_move ≤
      (SizeClassInfo.mk 8704 1 7 150, SizeClassInfo.mk 9344 1 7 153).1.num_to_move :=
  C10_batch_nonincreasing cfg_gt8_ps18 (by decide)
    (SizeClassInfo.mk 8704 1 7 150, SizeClassInfo.mk 9344 1 7 153) (by decide)

end TcmallocSizeClasses
